import Mathlib

/-!
Shallow embedding of `src/queue-rate-limited.js` (npm package
`queue-rate-limited`): a single-process, in-memory, rate-limited task
queue.  The JS object fields become fields of `QState`; the surrounding
event-loop runtime is modelled by an explicit list of outstanding
`setTimeout` timers, an event log of task executions and callback
invocations, and an explicit clock `now` standing for `Date.now()`.
Tasks are modelled by an identity token plus their outcome (return value
or thrown value); callbacks are modelled by identity tokens whose
invocations are recorded in the event log (`none` is the shared
`nullCallback`).
-/

namespace QueueRateLimited

/-- A JavaScript number as far as this code can observe it: `NaN`,
the two infinities, or a rational value.  `1000 / undefined` is `NaN`,
which is why this is needed for `jobIntervalMillis`. -/
inductive JSNum where
  | nan
  | posInf
  | negInf
  | num (q : ℚ)
deriving DecidableEq, Repr

/-- JS truthiness of a number: `NaN` and `0` are falsy. -/
def jsTruthy : JSNum → Bool
  | .nan => false
  | .posInf => true
  | .negInf => true
  | .num q => decide (q ≠ 0)

/-- JS comparison `x > 0`: false for `NaN`. -/
def jsGtZero : JSNum → Bool
  | .nan => false
  | .posInf => true
  | .negInf => false
  | .num q => decide (0 < q)

/-- JS comparison `a > b` with `a` an actual number: false when `b` is `NaN`. -/
def jsGtNum (a : ℚ) : JSNum → Bool
  | .nan => false
  | .posInf => false
  | .negInf => true
  | .num q => decide (q < a)

/-- JS subtraction `b - a` with `a` an actual number. -/
def jsSubNum : JSNum → ℚ → JSNum
  | .nan, _ => .nan
  | .posInf, _ => .posInf
  | .negInf, _ => .negInf
  | .num q, a => .num (q - a)

/-- JS division `a / b` of two actual numbers (`a / 0` is an infinity or
`NaN`, exactly as in IEEE/JS semantics restricted to rationals). -/
def jsDiv (a b : ℚ) : JSNum :=
  if b = 0 then
    if 0 < a then .posInf else if a < 0 then .negInf else .nan
  else .num (a / b)

deriving instance DecidableEq for Except

/-- A task: a zero-argument JS function, modelled by an identity token
(reference identity for `===`) together with the outcome of calling it:
`.ok v` returns `v`, `.error e` throws `e`. -/
structure Task where
  id : Nat
  outcome : Except Nat Nat
deriving DecidableEq, Repr

/-- The task items stored in `queue.tasks`, as built by `Queue.prototype.add`:
`{task: task, onSuccess: onSuccess || nullCallback, onError: onError || nullCallback}`.
A callback is an identity token; `none` is the shared `nullCallback`. -/
structure TaskItem where
  task : Task
  onSuccess : Option Nat
  onError : Option Nat
deriving DecidableEq, Repr

/-- An outstanding `setTimeout` wake-up: its handle and requested delay.
The callback is always the closure from `scheduleNext` (see `fireTimer`). -/
structure Timer where
  id : Nat
  delay : JSNum
deriving DecidableEq, Repr

/-- Observable events: a task's function being called, and callback
invocations with their argument. -/
inductive Event where
  | exec (taskId : Nat)
  | success (cb : Option Nat) (v : Nat)
  | err (cb : Option Nat) (e : Nat)
deriving DecidableEq, Repr

/-- The queue object's fields (`maxCallsPerSecond`, `tasks`, `isActive`,
`jobIntervalMillis`, `lastTaskTimestamp`, `currentTaskTimeoutId`)
together with the runtime: the outstanding timers, a fresh-handle
counter, the event log and the current time `Date.now()`. -/
structure QState where
  maxCallsPerSecond : ℚ
  tasks : List TaskItem
  isActive : Bool
  jobIntervalMillis : JSNum
  lastTaskTimestamp : Option ℚ
  currentTaskTimeoutId : Option Nat
  timers : List Timer
  nextTimerId : Nat
  events : List Event
  now : ℚ
deriving DecidableEq, Repr

/-- The constructor `function Queue(maxCallsPerSecond)`.  The argument is
`none` when the caller passes nothing (`undefined`).  Note the source
computes `this.jobIntervalMillis = 1000 / maxCallsPerSecond` from the RAW
parameter, not from the defaulted field `this.maxCallsPerSecond`; with no
argument this is `1000 / undefined = NaN`. -/
def Queue.new (maxCallsPerSecond : Option ℚ) : QState :=
  { maxCallsPerSecond := maxCallsPerSecond.getD 1
    tasks := []
    isActive := false
    jobIntervalMillis :=
      match maxCallsPerSecond with
      | none => JSNum.nan
      | some r => jsDiv 1000 r
    lastTaskTimestamp := none
    currentTaskTimeoutId := none
    timers := []
    nextTimerId := 1
    events := []
    now := 0 }

/-- `Queue.prototype.isEmpty`: `this.tasks.length === 0`. -/
def QState.isEmpty (q : QState) : Bool :=
  decide (q.tasks.length = 0)

/-- `Queue.prototype.isNotEmpty`. -/
def QState.isNotEmpty (q : QState) : Bool :=
  !q.isEmpty

/-- `Queue.prototype.isStarted`: returns `this.isActive`. -/
def QState.isStarted (q : QState) : Bool :=
  q.isActive

/-- `Queue.prototype.isStopped`: `!this.isStarted()`. -/
def QState.isStopped (q : QState) : Bool :=
  !q.isStarted

/-- `Queue.prototype.getQueueSize`. -/
def QState.getQueueSize (q : QState) : Nat :=
  q.tasks.length

/-- `Queue.prototype.getMaxCallsPerSecond`. -/
def QState.getMaxCallsPerSecond (q : QState) : ℚ :=
  q.maxCallsPerSecond

/-- The closure `processNextTask` inside `updateTaskSchedule`:
`shift()` the head task item; if one was there, call its task inside
`try`; on normal return record `Date.now()` into `lastTaskTimestamp` and
call `onSuccess` with the result; on a throw, skip both and call
`onError` with the thrown value. -/
def processNextTask (q : QState) : QState :=
  match q.tasks with
  | [] => q
  | item :: rest =>
    match item.task.outcome with
    | .ok v =>
      { q with
        tasks := rest
        lastTaskTimestamp := some q.now
        events := q.events ++ [Event.exec item.task.id, Event.success item.onSuccess v] }
    | .error e =>
      { q with
        tasks := rest
        events := q.events ++ [Event.exec item.task.id, Event.err item.onError e] }

/-- The closure `scheduleNext(timeoutMillisOverride)` inside
`updateTaskSchedule`: if the queue is empty do nothing, otherwise call
`setTimeout` (allocating a fresh handle, recorded in
`currentTaskTimeoutId`) with delay
`timeoutMillisOverride && timeoutMillisOverride > 0 ? timeoutMillisOverride : jobIntervalMillis`.
The argument is `none` when called as `scheduleNext()` (`undefined`,
falsy).  Note: no check of `currentTaskTimeoutId` and no cancellation of
an already outstanding timer. -/
def scheduleNext (q : QState) (timeoutMillisOverride : Option JSNum) : QState :=
  if q.isEmpty then q
  else
    let delay :=
      match timeoutMillisOverride with
      | none => q.jobIntervalMillis
      | some o => if jsTruthy o && jsGtZero o then o else q.jobIntervalMillis
    { q with
      timers := q.timers ++ [⟨q.nextTimerId, delay⟩]
      nextTimerId := q.nextTimerId + 1
      currentTaskTimeoutId := some q.nextTimerId }

/-- `Queue.prototype.updateTaskSchedule`: return early when empty or
stopped; compute `sinceLastInterval = Date.now() - lastTaskTimestamp`
(JS coerces `null` to `0`); when `lastTaskTimestamp == null` or
`sinceLastInterval > jobIntervalMillis`, process the next task
immediately and then `scheduleNext()`; otherwise
`scheduleNext(jobIntervalMillis - sinceLastInterval)`. -/
def updateTaskSchedule (q : QState) : QState :=
  if q.isEmpty || q.isStopped then q
  else
    let sinceLastInterval : ℚ := q.now - (q.lastTaskTimestamp.getD 0)
    if q.lastTaskTimestamp.isNone || jsGtNum sinceLastInterval q.jobIntervalMillis then
      scheduleNext (processNextTask q) none
    else
      scheduleNext q (some (jsSubNum q.jobIntervalMillis sinceLastInterval))

/-- `Queue.prototype.start`: if already active return `false`; otherwise
set `isActive`, run `updateTaskSchedule`, return `true`. -/
def QState.start (q : QState) : QState × Bool :=
  if q.isActive then (q, false)
  else (updateTaskSchedule { q with isActive := true }, true)

/-- `Queue.prototype.stop`: if active, clear `isActive` and, when a
handle is recorded, `clearInterval` it (cancel that one timer) and null
the handle.  A leaked timer whose handle was overwritten is NOT
cancelled. -/
def QState.stop (q : QState) : QState :=
  if q.isActive then
    let q' : QState := { q with isActive := false }
    match q'.currentTaskTimeoutId with
    | some tid =>
      { q' with
        timers := q'.timers.filter (fun tm => tm.id ≠ tid)
        currentTaskTimeoutId := none }
    | none => q'
  else q

/-- The list mutation performed by `Queue.prototype.add`:
`push` when `this.isEmpty() || append`, else `unshift`. -/
def addInsert (tasks : List TaskItem) (item : TaskItem) (app : Bool) : List TaskItem :=
  if tasks.length = 0 || app then tasks ++ [item] else item :: tasks

/-- `Queue.prototype.add(task, append, onSuccess, onError)`: build the
task item (callbacks default to `nullCallback`, i.e. `none`), insert it,
then always call `updateTaskSchedule`. -/
def QState.add (q : QState) (task : Task) (app : Bool)
    (onSuccess onError : Option Nat) : QState :=
  updateTaskSchedule
    { q with tasks := addInsert q.tasks ⟨task, onSuccess, onError⟩ app }

/-- `Queue.prototype.append`: `add(task, true, onSuccess, onError)`. -/
def QState.append (q : QState) (task : Task) (onSuccess onError : Option Nat) : QState :=
  q.add task true onSuccess onError

/-- `Queue.prototype.prepend`: `add(task, false, onSuccess, onError)`. -/
def QState.prepend (q : QState) (task : Task) (onSuccess onError : Option Nat) : QState :=
  q.add task false onSuccess onError

/-- The scan loop of `Queue.prototype.remove`: iterate `i` from
`tasks.length - 1` down to `0`, `splice` out index `i` when
`tasks[i].task === task` and count it.  Processing the tail before the
head is exactly the right-to-left splice order. -/
def removeScan (task : Task) : List TaskItem → List TaskItem × Nat
  | [] => ([], 0)
  | item :: rest =>
    let r := removeScan task rest
    if item.task = task then (r.1, r.2 + 1) else (item :: r.1, r.2)

/-- `Queue.prototype.remove(task)`: return `0` on an empty queue,
otherwise run the splice loop and return the count removed.  Nothing
else in the state is touched (no `updateTaskSchedule` call). -/
def QState.remove (q : QState) (task : Task) : QState × Nat :=
  if q.isEmpty then (q, 0)
  else
    let r := removeScan task q.tasks
    ({ q with tasks := r.1 }, r.2)

/-- Firing an outstanding timer runs the callback passed to `setTimeout`
in `scheduleNext`: `processNextTask(); queue.lastTaskTimestamp = Date.now();`.
The fired timer leaves the outstanding set; `currentTaskTimeoutId` is NOT
cleared (a stale handle remains).  Firing a handle that is not
outstanding does nothing.  Note the callback neither checks `isActive`
nor arms any new timer. -/
def fireTimer (q : QState) (tid : Nat) : QState :=
  if q.timers.any (fun tm => tm.id = tid) then
    let q' := processNextTask { q with timers := q.timers.filter (fun tm => tm.id ≠ tid) }
    { q' with lastTaskTimestamp := some q'.now }
  else q

/-- The operations a caller and the event loop can perform on a queue. -/
inductive Op where
  | start
  | stop
  | append (t : Task) (s e : Option Nat)
  | prepend (t : Task) (s e : Option Nat)
  | remove (t : Task)
  | fire (tid : Nat)
  | advance (d : ℚ)
deriving DecidableEq, Repr

/-- One operation applied to a state. -/
def stepOp (q : QState) : Op → QState
  | .start => (q.start).1
  | .stop => q.stop
  | .append t s e => q.append t s e
  | .prepend t s e => q.prepend t s e
  | .remove t => (q.remove t).1
  | .fire tid => fireTimer q tid
  | .advance d => { q with now := q.now + d }

/-- A sequence of operations applied in order. -/
def runOps (q : QState) (ops : List Op) : QState :=
  ops.foldl stepOp q

/-- A sample task returning `11`. -/
def task1 : Task := ⟨1, Except.ok 11⟩

/-- A sample task returning `12`. -/
def task2 : Task := ⟨2, Except.ok 12⟩

/-- A sample task returning `13`. -/
def task3 : Task := ⟨3, Except.ok 13⟩

/-- A sample task throwing `7`. -/
def taskThatThrows : Task := ⟨9, Except.error 7⟩

/-- Trace: `Queue(1)`, append three tasks while stopped, `start()` (which
executes `task1` immediately and arms timer `1`), let 1000ms pass, and
let timer `1` fire (which executes `task2`). -/
def c1state : QState :=
  runOps (Queue.new (some 1))
    [Op.append task1 none none, Op.append task2 none none, Op.append task3 none none,
     Op.start, Op.advance 1000, Op.fire 1]

/-- Trace: `Queue(1)`, `start()` on the empty queue, then append three
tasks: the first executes immediately, the second and third appends each
arm a timer (handles `1` and `2`). -/
def c2state : QState :=
  runOps (Queue.new (some 1))
    [Op.start, Op.append task1 none none, Op.append task2 none none,
     Op.append task3 none none]

/-- The `c2state` trace followed by `stop()`: only the tracked timer `2`
is cancelled, timer `1` is leaked. -/
def c8stopped : QState :=
  QState.stop c2state

/-- Trace: `Queue(1)`, append a throwing task while stopped, then
`start()`: the cold-start path executes the task, which throws. -/
def c4state : QState :=
  runOps (Queue.new (some 1))
    [Op.append taskThatThrows none (some 5), Op.start]

/-- A queue with two pending tasks (one succeeding with callbacks
`21`/`22`, one throwing with callbacks `31`/`32`), used as a concrete
instance for callback-dispatch statements. -/
def c5state : QState :=
  { Queue.new (some 1) with
    tasks := [⟨task2, some 21, some 22⟩, ⟨taskThatThrows, some 31, some 32⟩] }

/-! ## Helper lemmas -/

theorem processNextTask_isActive (q : QState) :
    (processNextTask q).isActive = q.isActive := by
  unfold processNextTask
  split
  · rfl
  · split <;> rfl

theorem processNextTask_now (q : QState) :
    (processNextTask q).now = q.now := by
  unfold processNextTask
  split
  · rfl
  · split <;> rfl

theorem scheduleNext_isActive (q : QState) (o : Option JSNum) :
    (scheduleNext q o).isActive = q.isActive := by
  unfold scheduleNext
  split <;> rfl

theorem updateTaskSchedule_isActive (q : QState) :
    (updateTaskSchedule q).isActive = q.isActive := by
  unfold updateTaskSchedule
  split
  · rfl
  · dsimp only
    split
    · rw [scheduleNext_isActive, processNextTask_isActive]
    · rw [scheduleNext_isActive]

theorem updateTaskSchedule_stopped (q : QState) (h : q.isActive = false) :
    updateTaskSchedule q = q := by
  unfold updateTaskSchedule
  simp [QState.isStopped, QState.isStarted, h]

theorem removeScan_spec (t : Task) (l : List TaskItem) :
    removeScan t l =
      (l.filter (fun it => !(decide (it.task = t))),
       l.countP (fun it => decide (it.task = t))) := by
  induction l with
  | nil => rfl
  | cons x xs ih =>
    by_cases hx : x.task = t <;>
      simp [removeScan, ih, hx, List.countP_cons]

theorem c1state_eq :
    c1state =
      { maxCallsPerSecond := 1,
        tasks := [⟨task3, none, none⟩],
        isActive := true,
        jobIntervalMillis := JSNum.num 1000,
        lastTaskTimestamp := some 1000,
        currentTaskTimeoutId := some 1,
        timers := [],
        nextTimerId := 2,
        events := [Event.exec 1, Event.success none 11, Event.exec 2, Event.success none 12],
        now := 1000 } := by
  norm_num [c1state, runOps, stepOp, Queue.new, QState.start, QState.append, QState.add,
    addInsert, updateTaskSchedule, scheduleNext, processNextTask, fireTimer,
    QState.isEmpty, QState.isStopped, QState.isStarted, jsDiv, jsGtNum, jsSubNum,
    jsTruthy, jsGtZero, task1, task2, task3]

theorem c2state_eq :
    c2state =
      { maxCallsPerSecond := 1,
        tasks := [⟨task2, none, none⟩, ⟨task3, none, none⟩],
        isActive := true,
        jobIntervalMillis := JSNum.num 1000,
        lastTaskTimestamp := some 0,
        currentTaskTimeoutId := some 2,
        timers := [⟨1, JSNum.num 1000⟩, ⟨2, JSNum.num 1000⟩],
        nextTimerId := 3,
        events := [Event.exec 1, Event.success none 11],
        now := 0 } := by
  norm_num [c2state, runOps, stepOp, Queue.new, QState.start, QState.append, QState.add,
    addInsert, updateTaskSchedule, scheduleNext, processNextTask, QState.isEmpty,
    QState.isStopped, QState.isStarted, jsDiv, jsGtNum, jsSubNum, jsTruthy, jsGtZero,
    task1, task2, task3]

theorem c8stopped_eq :
    c8stopped =
      { maxCallsPerSecond := 1,
        tasks := [⟨task2, none, none⟩, ⟨task3, none, none⟩],
        isActive := false,
        jobIntervalMillis := JSNum.num 1000,
        lastTaskTimestamp := some 0,
        currentTaskTimeoutId := none,
        timers := [⟨1, JSNum.num 1000⟩],
        nextTimerId := 3,
        events := [Event.exec 1, Event.success none 11],
        now := 0 } := by
  unfold c8stopped
  rw [c2state_eq]
  decide

theorem c4state_eq :
    c4state =
      { maxCallsPerSecond := 1,
        tasks := [],
        isActive := true,
        jobIntervalMillis := JSNum.num 1000,
        lastTaskTimestamp := none,
        currentTaskTimeoutId := none,
        timers := [],
        nextTimerId := 1,
        events := [Event.exec 9, Event.err (some 5) 7],
        now := 0 } := by
  norm_num [c4state, runOps, stepOp, Queue.new, QState.start, QState.append, QState.add,
    addInsert, updateTaskSchedule, scheduleNext, processNextTask, QState.isEmpty,
    QState.isStopped, QState.isStarted, jsDiv, jsGtNum, jsSubNum, jsTruthy, jsGtZero,
    taskThatThrows]

/-! ## Claim theorems -/

/-- Claim C1: the claim says a fired timer re-arms whenever pending is
non-empty and the queue active, so all appended tasks eventually run.
In fact the `setTimeout` callback only processes one task and records
the time; it never arms a new timer.  On the concrete trace `c1state`
(Queue(1); append task1, task2, task3; start; wait; the armed timer
fires) the queue is active with `task3` still pending, yet no timer is
outstanding, and firing any handle is a no-op: `task3` never executes
without further caller intervention. -/
theorem C1_timer_fires_without_rearm :
    c1state.isActive = true ∧
    c1state.tasks = [⟨task3, none, none⟩] ∧
    c1state.timers = [] ∧
    (∀ tid : Nat, fireTimer c1state tid = c1state) ∧
    c1state.events =
      [Event.exec 1, Event.success none 11, Event.exec 2, Event.success none 12] := by
  simp only [c1state_eq]
  refine ⟨trivial, trivial, trivial, ?_, trivial⟩
  intro tid
  simp [fireTimer]

/-- Claim C2: the claim says at most one timer is ever outstanding.  In
fact `scheduleNext` calls `setTimeout` without checking or cancelling
the timer already tracked by `currentTaskTimeoutId`; on the trace
`c2state` (Queue(1); start; append three tasks) the second and third
append each arm a timer, leaving two outstanding, with the handle of the
first one lost. -/
theorem C2_enqueue_arms_second_timer :
    c2state.isActive = true ∧
    List.map Timer.id c2state.timers = [1, 2] ∧
    c2state.timers.length = 2 ∧
    c2state.currentTaskTimeoutId = some 2 := by
  simp only [c2state_eq]
  decide

/-- Claim C3: the claim says `intervalMillis = 1000 / effective rate`,
so the no-argument constructor (rate defaulting to 1) gives 1000ms.  In
fact the source divides by the RAW parameter
(`this.jobIntervalMillis = 1000 / maxCallsPerSecond`), so `new Queue()`
yields `1000 / undefined = NaN`, not 1000, even though
`getMaxCallsPerSecond()` returns the defaulted 1.  With an explicit rate
(here 5) the derived interval is correct (200ms). -/
theorem C3_default_interval_is_nan :
    (Queue.new none).getMaxCallsPerSecond = 1 ∧
    (Queue.new none).jobIntervalMillis = JSNum.nan ∧
    JSNum.nan ≠ JSNum.num 1000 ∧
    (Queue.new (some 5)).getMaxCallsPerSecond = 5 ∧
    (Queue.new (some 5)).jobIntervalMillis = JSNum.num 200 := by
  refine ⟨rfl, rfl, by decide, rfl, ?_⟩
  show jsDiv 1000 5 = JSNum.num 200
  norm_num [jsDiv]

/-- Claim C4, counterexample: the claim says every execution records the
current time into `lastExecutionTimestamp`, whether the task returns or
raises and in both the cold-start and timer paths.  On the trace
`c4state` (Queue(1); append a throwing task while stopped; start) the
cold-start path executes the task (the event log shows it), the task
throws, and `lastTaskTimestamp` is left `null`: the assignment sits
inside the `try` after the task call and the timer-callback assignment
does not run in this path. -/
theorem C4_cx_coldstart_error_skips_timestamp :
    c4state.lastTaskTimestamp = none ∧
    c4state.events = [Event.exec 9, Event.err (some 5) 7] := by
  simp only [c4state_eq]
  exact ⟨trivial, trivial⟩

/-- Claim C4, amended: a timer-fired execution always records the
current time as `lastTaskTimestamp` (the timer callback assigns it after
`processNextTask`, throw or no throw), while a cold-start/catch-up
execution (bare `processNextTask`) records it only when the task returns
normally; a throwing task leaves it unchanged there. -/
theorem C4_timestamp_rules (q : QState) (tid : Nat) (item : TaskItem)
    (rest : List TaskItem)
    (hmem : q.timers.any (fun tm => tm.id = tid) = true)
    (htasks : q.tasks = item :: rest) :
    (fireTimer q tid).lastTaskTimestamp = some q.now ∧
    (processNextTask q).lastTaskTimestamp =
      (match item.task.outcome with
       | Except.ok _ => some q.now
       | Except.error _ => q.lastTaskTimestamp) := by
  constructor
  · simp [fireTimer, hmem, processNextTask_now]
  · cases ho : item.task.outcome <;> simp [processNextTask, htasks, ho]

/-- Witness for `C4_timestamp_rules` at `c2state` with timer `1` and its
head task `task2` (which succeeds). -/
theorem C4_timestamp_rules_witness :
    c2state.timers.any (fun tm => tm.id = 1) = true ∧
    c2state.tasks = ⟨task2, none, none⟩ :: [⟨task3, none, none⟩] ∧
    (fireTimer c2state 1).lastTaskTimestamp = some c2state.now ∧
    (processNextTask c2state).lastTaskTimestamp = some c2state.now :=
  ⟨by rw [c2state_eq]; decide, by rw [c2state_eq],
   (C4_timestamp_rules c2state 1 ⟨task2, none, none⟩ [⟨task3, none, none⟩]
      (by rw [c2state_eq]; decide) (by rw [c2state_eq])).1,
   (C4_timestamp_rules c2state 1 ⟨task2, none, none⟩ [⟨task3, none, none⟩]
      (by rw [c2state_eq]; decide) (by rw [c2state_eq])).2⟩

/-- Claim C5: executing the head task dispatches exactly one callback:
on a normal return of `v`, `onSuccess` is called once with `v` and
`onError` is not called; on a throw of `e`, `onError` is called once
with `e` and `onSuccess` is not called.  The error is swallowed by the
`try`/`catch`: `processNextTask` is total and simply returns the updated
state, so nothing propagates to callers of `append` or `start`. -/
theorem C5_callback_dispatch (q : QState) (item : TaskItem)
    (rest : List TaskItem) (htasks : q.tasks = item :: rest) :
    (processNextTask q).events =
      q.events ++
        (match item.task.outcome with
         | Except.ok v => [Event.exec item.task.id, Event.success item.onSuccess v]
         | Except.error e => [Event.exec item.task.id, Event.err item.onError e]) ∧
    (processNextTask q).tasks = rest := by
  cases ho : item.task.outcome <;> simp [processNextTask, htasks, ho]

/-- Witness for `C5_callback_dispatch` at `c5state`, whose head task
returns `12` with `onSuccess` callback `21`. -/
theorem C5_callback_dispatch_witness :
    c5state.tasks = ⟨task2, some 21, some 22⟩ :: [⟨taskThatThrows, some 31, some 32⟩] ∧
    (processNextTask c5state).events =
      c5state.events ++ [Event.exec 2, Event.success (some 21) 12] ∧
    (processNextTask c5state).tasks = [⟨taskThatThrows, some 31, some 32⟩] :=
  ⟨rfl,
   (C5_callback_dispatch c5state ⟨task2, some 21, some 22⟩
      [⟨taskThatThrows, some 31, some 32⟩] rfl).1,
   (C5_callback_dispatch c5state ⟨task2, some 21, some 22⟩
      [⟨taskThatThrows, some 31, some 32⟩] rfl).2⟩

/-- Claim C6: `add` inserts at the tail when the `append` flag is set, at
the head when the flag is clear and the list is non-empty, and at the
tail when the list is empty; `processNextTask` pops the head, so pending
order is execution order; and on a stopped empty queue, append A, append
B, prepend C leaves pending exactly C, A, B. -/
theorem C6_insertion_semantics (q : QState) (tasks xs : List TaskItem)
    (item x : TaskItem) (A B C : Task) :
    addInsert tasks item true = tasks ++ [item] ∧
    addInsert (x :: xs) item false = item :: x :: xs ∧
    addInsert [] item false = [item] ∧
    (processNextTask { q with tasks := item :: xs }).tasks = xs ∧
    (((({ q with isActive := false, tasks := [] } : QState).append A none none).append
        B none none).prepend C none none).tasks =
      [⟨C, none, none⟩, ⟨A, none, none⟩, ⟨B, none, none⟩] := by
  refine ⟨by simp [addInsert], by simp [addInsert], by simp [addInsert], ?_, ?_⟩
  · cases ho : item.task.outcome <;> simp [processNextTask, ho]
  · simp [QState.append, QState.prepend, QState.add, addInsert, updateTaskSchedule_stopped]

/-- Claim C7: `remove(t)` deletes exactly the pending entries whose
stored task is `t` (all occurrences) and returns the number deleted; in
particular it returns how many entries matched, which is 0 when none
does. -/
theorem C7_remove_all_matches (q : QState) (t : Task) :
    ((q.remove t).1).tasks = q.tasks.filter (fun it => !(decide (it.task = t))) ∧
    (q.remove t).2 = q.tasks.countP (fun it => decide (it.task = t)) := by
  obtain ⟨mc, ts, ia, ji, lt, ct, tm, ni, ev, nw⟩ := q
  unfold QState.remove
  rcases ts with _ | ⟨x, xs⟩
  · simp [QState.isEmpty]
  · simp [QState.isEmpty, removeScan_spec]

/-- Claim C8, counterexample: the claim says that while `active` is
false no task is dequeued or executed.  On the trace `c8stopped`
(Queue(1); start; append three tasks — leaking timer `1` when timer `2`
is armed — then stop, which cancels only the tracked timer `2`), the
leaked timer `1` is still outstanding; firing it while the queue is
stopped pops and executes `task2`. -/
theorem C8_cx_execution_while_stopped :
    c8stopped.isActive = false ∧
    List.map Timer.id c8stopped.timers = [1] ∧
    c8stopped.tasks.length = 2 ∧
    (fireTimer c8stopped 1).tasks.length = 1 ∧
    (fireTimer c8stopped 1).events =
      c8stopped.events ++ [Event.exec 2, Event.success none 12] := by
  simp only [c8stopped_eq]
  decide

/-- Claim C8, amended: while `active` is false, the API operations other
than `start` dequeue and execute nothing — append/prepend only insert
(the schedule update returns early) and `remove`/`stop` are pure —
and `stop()` on an active queue clears `active`, cancels the timer
tracked by `currentTaskTimeoutId`, nulls the handle and leaves pending
and the event log unchanged; but a leaked, untracked timer can still
fire while stopped and execute a task (see the counterexample). -/
theorem C8_stopped_frame (q : QState) (t : Task) (s e : Option Nat)
    (h : q.isActive = false) :
    (q.append t s e).events = q.events ∧
    (q.append t s e).tasks = q.tasks ++ [⟨t, s, e⟩] ∧
    (q.prepend t s e).events = q.events ∧
    ((q.remove t).1).events = q.events ∧
    q.stop = q ∧
    (({ q with isActive := true } : QState).stop).tasks = q.tasks ∧
    (({ q with isActive := true } : QState).stop).events = q.events ∧
    (({ q with isActive := true } : QState).stop).isActive = false ∧
    (({ q with isActive := true } : QState).stop).currentTaskTimeoutId = none ∧
    (({ q with isActive := true } : QState).stop).timers =
      (match q.currentTaskTimeoutId with
       | some tid => q.timers.filter (fun tm => tm.id ≠ tid)
       | none => q.timers) := by
  have happ : (q.append t s e).events = q.events ∧
      (q.append t s e).tasks = q.tasks ++ [⟨t, s, e⟩] := by
    rw [QState.append, QState.add, updateTaskSchedule_stopped _ (by simpa using h)]
    constructor
    · rfl
    · simp [addInsert]
  have hpre : (q.prepend t s e).events = q.events := by
    rw [QState.prepend, QState.add, updateTaskSchedule_stopped _ (by simpa using h)]
  have hrem : ((q.remove t).1).events = q.events := by
    unfold QState.remove
    split <;> rfl
  have hstop : q.stop = q := by
    simp [QState.stop, h]
  refine ⟨happ.1, happ.2, hpre, hrem, hstop, ?_, ?_, ?_, ?_, ?_⟩ <;>
    · unfold QState.stop
      cases hc : q.currentTaskTimeoutId <;> simp [hc]

/-- Witness for `C8_stopped_frame` at a freshly constructed (inactive)
`Queue(1)` with `task1`. -/
theorem C8_stopped_frame_witness :
    (Queue.new (some 1)).isActive = false ∧
    (((Queue.new (some 1)).append task1 none none).events = (Queue.new (some 1)).events ∧
     ((Queue.new (some 1)).append task1 none none).tasks =
       (Queue.new (some 1)).tasks ++ [⟨task1, none, none⟩] ∧
     ((Queue.new (some 1)).prepend task1 none none).events = (Queue.new (some 1)).events ∧
     (((Queue.new (some 1)).remove task1).1).events = (Queue.new (some 1)).events ∧
     (Queue.new (some 1)).stop = Queue.new (some 1) ∧
     (({ Queue.new (some 1) with isActive := true } : QState).stop).tasks =
       (Queue.new (some 1)).tasks ∧
     (({ Queue.new (some 1) with isActive := true } : QState).stop).events =
       (Queue.new (some 1)).events ∧
     (({ Queue.new (some 1) with isActive := true } : QState).stop).isActive = false ∧
     (({ Queue.new (some 1) with isActive := true } : QState).stop).currentTaskTimeoutId =
       none ∧
     (({ Queue.new (some 1) with isActive := true } : QState).stop).timers =
       (Queue.new (some 1)).timers) :=
  ⟨rfl, C8_stopped_frame (Queue.new (some 1)) task1 none none rfl⟩

/-- Claim C9: `start()` on an active queue returns `false` and leaves
the whole state (pending, timestamp, handle, timers) untouched; on a
stopped queue it sets `active`, runs `updateTaskSchedule`, returns
`true`, and the queue ends active. -/
theorem C9_start_idempotent_frame (q : QState) :
    ({ q with isActive := true } : QState).start = ({ q with isActive := true }, false) ∧
    (({ q with isActive := false } : QState).start).2 = true ∧
    (({ q with isActive := false } : QState).start).1 =
      updateTaskSchedule { q with isActive := true } ∧
    ((({ q with isActive := false } : QState).start).1).isActive = true := by
  refine ⟨?_, ?_, ?_, ?_⟩
  · simp [QState.start]
  · simp [QState.start]
  · simp [QState.start]
  · simp [QState.start, updateTaskSchedule_isActive]

/-- Claim C10: `remove` never touches the schedule: its entire effect is
replacing `tasks` by the sub-list of entries whose task is not `t`
(relative order preserved); `isActive`, `lastTaskTimestamp`,
`currentTaskTimeoutId`, the outstanding timers, the event log and the
clock are all unchanged. -/
theorem C10_remove_frame (q : QState) (t : Task) :
    (q.remove t).1 =
      { q with tasks := q.tasks.filter (fun it => !(decide (it.task = t))) } := by
  obtain ⟨mc, ts, ia, ji, lt, ct, tm, ni, ev, nw⟩ := q
  unfold QState.remove
  rcases ts with _ | ⟨x, xs⟩
  · simp [QState.isEmpty]
  · simp [QState.isEmpty, removeScan_spec]

end QueueRateLimited
